import Mathlib

/-
Verification of the FVP compatibility shim headers
(`src/ns_ambiqsuite_harness_fvp.h` and `src/cmsis.h`).

The harness header is embedded by explicit state passing: a C function with
body `{}` becomes the identity on the (caller-visible) program state, and the
timer functions, whose bodies only assign through the caller-supplied
`ns_timer_t *`, become functions on the timer record (lifted to a pair
`(globals, timer)` where the globals component is untouched, exactly as the
source bodies touch no global).  `ns_malloc` / `ns_free` forward to the host
allocator, which is external libc code and is therefore modelled as an
explicit parameter (`HostAllocator`).  The preprocessor logic of `cmsis.h`
is embedded as an association-list environment with define-if-absent steps.
-/

set_option autoImplicit false

/-- The `ns_timer_t` struct of `ns_ambiqsuite_harness_fvp.h`:
two `uint32_t` fields, `start_time` and `duration`.  Only the value `0` is
ever stored, so the fields are modelled as `Nat`. -/
structure ns_timer_t where
  start_time : Nat
  duration : Nat
  deriving DecidableEq

/-- The function `ns_timer_init`: `timer->start_time = 0; timer->duration = 0;`. -/
def ns_timer_init (_timer : ns_timer_t) : ns_timer_t :=
  { start_time := 0, duration := 0 }

/-- The function `ns_timer_start`: `timer->start_time = 0;` (the mock implementation);
`duration` is not assigned. -/
def ns_timer_start (timer : ns_timer_t) : ns_timer_t :=
  { timer with start_time := 0 }

/-- The function `ns_timer_init` acting on the whole caller-visible state `(globals, timer)`:
the source body assigns only through the `timer` pointer, so the globals
component is carried through unchanged. -/
def ns_timer_init_st {γ : Type} (s : γ × ns_timer_t) : γ × ns_timer_t :=
  (s.1, ns_timer_init s.2)

/-- The function `ns_timer_start` acting on the whole caller-visible state `(globals, timer)`:
the source body assigns only through the `timer` pointer. -/
def ns_timer_start_st {γ : Type} (s : γ × ns_timer_t) : γ × ns_timer_t :=
  (s.1, ns_timer_start s.2)

/-- The function `ns_core_init`: empty body, so the identity on any program state. -/
def ns_core_init {σ : Type} (s : σ) : σ := s

/-- The function `ns_core_deinit`: empty body. -/
def ns_core_deinit {σ : Type} (s : σ) : σ := s

/-- The function `ns_power_init`: empty body. -/
def ns_power_init {σ : Type} (s : σ) : σ := s

/-- The function `ns_power_deinit`: empty body. -/
def ns_power_deinit {σ : Type} (s : σ) : σ := s

/-- The function `am_hal_interrupt_master_enable`: empty body. -/
def am_hal_interrupt_master_enable {σ : Type} (s : σ) : σ := s

/-- The function `am_hal_interrupt_master_disable`: empty body. -/
def am_hal_interrupt_master_disable {σ : Type} (s : σ) : σ := s

/-- The function `am_hal_sysctrl_sleep`: empty body. -/
def am_hal_sysctrl_sleep {σ : Type} (s : σ) : σ := s

/-- The function `am_hal_sysctrl_deepsleep`: empty body. -/
def am_hal_sysctrl_deepsleep {σ : Type} (s : σ) : σ := s

/-- The function `am_bsp_low_power_init`: empty body. -/
def am_bsp_low_power_init {σ : Type} (s : σ) : σ := s

/-- The function `am_bsp_low_power_exit`: empty body. -/
def am_bsp_low_power_exit {σ : Type} (s : σ) : σ := s

/-- Names of the ten void no-op stubs of the harness header. -/
inductive NoOpStub where
  | core_init
  | core_deinit
  | power_init
  | power_deinit
  | interrupt_master_enable
  | interrupt_master_disable
  | sysctrl_sleep
  | sysctrl_deepsleep
  | bsp_low_power_init
  | bsp_low_power_exit
  deriving DecidableEq

/-- Dispatch a no-op stub call on a program state. -/
def runNoOpStub {σ : Type} : NoOpStub → σ → σ
  | .core_init, s => ns_core_init s
  | .core_deinit, s => ns_core_deinit s
  | .power_init, s => ns_power_init s
  | .power_deinit, s => ns_power_deinit s
  | .interrupt_master_enable, s => am_hal_interrupt_master_enable s
  | .interrupt_master_disable, s => am_hal_interrupt_master_disable s
  | .sysctrl_sleep, s => am_hal_sysctrl_sleep s
  | .sysctrl_deepsleep, s => am_hal_sysctrl_deepsleep s
  | .bsp_low_power_init, s => am_bsp_low_power_init s
  | .bsp_low_power_exit, s => am_bsp_low_power_exit s

/-- Run a sequence of no-op stub calls, in order. -/
def runNoOpStubs {σ : Type} : List NoOpStub → σ → σ
  | [], s => s
  | c :: rest, s => runNoOpStubs rest (runNoOpStub c s)

/-- A model of the host allocator (libc `malloc`/`free`), which is external
to this repository. `malloc` takes the allocator state and a size and returns
an optional pointer (`none` is the null return on allocation failure)
together with the new state; `free` returns `none` when the call faults
(e.g. a pointer that was never allocated). The field `free_after_malloc` is
the host contract that freeing a pointer just returned by `malloc` does not
fault. -/
structure HostAllocator (σ : Type) where
  malloc : σ → Nat → Option Nat × σ
  free : σ → Nat → Option σ
  free_after_malloc : ∀ s n p sNew, malloc s n = (some p, sNew) →
    (free sNew p).isSome

/-- The function `ns_malloc`: `return malloc(size);` — a direct forward to the host
allocator. -/
def ns_malloc {σ : Type} (A : HostAllocator σ) (s : σ) (size : Nat) :
    Option Nat × σ :=
  A.malloc s size

/-- The function `ns_free`: `free(ptr);` — a direct forward to the host allocator. -/
def ns_free {σ : Type} (A : HostAllocator σ) (s : σ) (ptr : Nat) : Option σ :=
  A.free s ptr

/-- A concrete host allocator used for witnesses and counterexamples:
the state is a fresh-pointer counter together with the list of live
`(pointer, size)` allocations; `malloc` always succeeds with a fresh
pointer, and `free` faults on a pointer that is not live. -/
def listAlloc : HostAllocator (Nat × List (Nat × Nat)) where
  malloc := fun s n => (some s.1, (s.1 + 1, (s.1, n) :: s.2))
  free := fun s p =>
    if s.2.any (fun e => e.1 = p) then
      some (s.1, s.2.filter (fun e => ¬ e.1 = p))
    else
      none
  free_after_malloc := by
    intro s n p sNew h
    simp only [Prod.mk.injEq, Option.some.injEq] at h
    simp [← h.1, ← h.2]

/-- A preprocessor definition body, as it appears textually in `cmsis.h`:
a numeric constant (`0U`, `24U`, `0xC5ACCE55U`), the shift form
`(1UL << NAME)` used by the two mask defines, or an uninterpreted token
sequence (the pointer casts and the inline-asm barriers). -/
inductive PPBody where
  | num : Nat → PPBody
  | shl1 : String → PPBody
  | text : String → PPBody
  deriving DecidableEq

/-- The preprocessor environment: the finite map of defined names, as an
association list (most recent definition first). -/
def PPEnv : Type := List (String × PPBody)

/-- Look up a defined name in the environment. -/
def ppLookup (env : PPEnv) (n : String) : Option PPBody :=
  match env with
  | [] => none
  | (m, b) :: rest => if m = n then some b else ppLookup rest n

/-- An unconditional `#define n b`: succeeds when `n` is not yet defined (or
is redefined with the identical body); redefinition with a different body is
the preprocessor's redefinition error, returned as `none`. -/
def ppDefine (env : PPEnv) (n : String) (b : PPBody) : Option PPEnv :=
  match ppLookup env n with
  | some prev => if prev = b then some env else none
  | none => some ((n, b) :: env)

/-- The `#ifndef n` / `#define n b` / `#endif` pattern used throughout
`cmsis.h`: define only if absent. -/
def ppGuardedDefine (env : PPEnv) (n : String) (b : PPBody) : Option PPEnv :=
  if (ppLookup env n).isSome then some env else ppDefine env n b

/-- The effect of a guarded define, as a total function (it never errors:
see `ppGuardedDefine_eq`). -/
def ppGuardedApply (env : PPEnv) (n : String) (b : PPBody) : PPEnv :=
  if (ppLookup env n).isSome then env else (n, b) :: env

/-- The guarded `#define` directives of `cmsis.h`, in source order, with
their bodies. -/
def cmsisGuardedDefs : List (String × PPBody) :=
  [ ("CoreDebug", PPBody.text "((CoreDebug_Type *) CoreDebug_BASE)"),
    ("DWT", PPBody.text "((DWT_Type *) DWT_BASE)"),
    ("DWT_CTRL_CYCCNTENA_Msk", PPBody.shl1 "DWT_CTRL_CYCCNTENA_Pos"),
    ("DWT_CTRL_CYCCNTENA_Pos", PPBody.num 0),
    ("CoreDebug_DEMCR_TRCENA_Msk", PPBody.shl1 "CoreDebug_DEMCR_TRCENA_Pos"),
    ("CoreDebug_DEMCR_TRCENA_Pos", PPBody.num 24),
    ("DWT_LAR", PPBody.num 0xC5ACCE55),
    ("__DSB", PPBody.text "__asm volatile (dsb ::: memory)"),
    ("__ISB", PPBody.text "__asm volatile (isb ::: memory)") ]

/-- The names of the guarded symbols supplied by `cmsis.h`. -/
def cmsisGuardedNames : List String :=
  cmsisGuardedDefs.map Prod.fst

/-- Run a list of guarded defines in order, propagating a preprocessor
error. -/
def runGuardedList (env : PPEnv) : List (String × PPBody) → Option PPEnv
  | [] => some env
  | (n, b) :: rest =>
    match ppGuardedDefine env n b with
    | some e => runGuardedList e rest
    | none => none

/-- Run a list of guarded defines in order, as a total function. -/
def applyGuardedList (env : PPEnv) : List (String × PPBody) → PPEnv
  | [] => env
  | (n, b) :: rest => applyGuardedList (ppGuardedApply env n b) rest

/-- Processing `cmsis.h`: the include guard `#ifndef CMSIS_H` skips the whole
body when `CMSIS_H` is already defined; otherwise `CMSIS_H` is defined
(empty body) and the guarded defines run in source order.  `none` is a
preprocessor redefinition error. -/
def processCmsisH (env : PPEnv) : Option PPEnv :=
  if (ppLookup env "CMSIS_H").isSome then some env
  else
    match ppDefine env "CMSIS_H" (PPBody.text "") with
    | some e => runGuardedList e cmsisGuardedDefs
    | none => none

/-- The effect of processing `cmsis.h`, as a total function
(see `processCmsisH_eq`). -/
def processApply (env : PPEnv) : PPEnv :=
  if (ppLookup env "CMSIS_H").isSome then env
  else applyGuardedList (("CMSIS_H", PPBody.text "") :: env) cmsisGuardedDefs

/-- Evaluate a definition body to an unsigned integer, in a given
environment: numeric constants evaluate to themselves and `(1UL << NAME)`
evaluates to `1` shifted left by the numeric value `NAME` is defined to. -/
def evalPPBody (env : PPEnv) : PPBody → Option Nat
  | .num n => some n
  | .shl1 name =>
    match ppLookup env name with
    | some (.num p) => some (1 <<< p)
    | _ => none
  | .text _ => none

/-- Evaluate the definition of a name in an environment. -/
def evalDef (env : PPEnv) (n : String) : Option Nat :=
  match ppLookup env n with
  | some b => evalPPBody env b
  | none => none

/-- A guarded define never errors, and its effect is `ppGuardedApply`. -/
theorem ppGuardedDefine_eq (env : PPEnv) (n : String) (b : PPBody) :
    ppGuardedDefine env n b = some (ppGuardedApply env n b) := by
  unfold ppGuardedDefine ppGuardedApply ppDefine
  cases h : ppLookup env n <;> simp [h]

/-- A chain of guarded defines never errors, and its effect is
`applyGuardedList`. -/
theorem runGuardedList_eq (l : List (String × PPBody)) (env : PPEnv) :
    runGuardedList env l = some (applyGuardedList env l) := by
  induction l generalizing env with
  | nil => rfl
  | cons hd tl ih =>
    cases hd with
    | mk n b =>
      simp [runGuardedList, applyGuardedList, ppGuardedDefine_eq, ih]

/-- Processing `cmsis.h` never errors, and its effect is `processApply`. -/
theorem processCmsisH_eq (env : PPEnv) :
    processCmsisH env = some (processApply env) := by
  unfold processCmsisH processApply
  cases h : ppLookup env "CMSIS_H" with
  | none => simp [h, ppDefine, runGuardedList_eq]
  | some b => simp [h]

/-- Looking up below a cons with a different name. -/
theorem ppLookup_cons_ne (env : PPEnv) (m n : String) (b : PPBody)
    (h : ¬ m = n) : ppLookup ((m, b) :: env) n = ppLookup env n := by
  simp [ppLookup, h]

/-- A guarded define with a different name does not change a lookup. -/
theorem ppLookup_guardedApply_ne (env : PPEnv) (m n : String) (b : PPBody)
    (h : ¬ m = n) :
    ppLookup (ppGuardedApply env m b) n = ppLookup env n := by
  unfold ppGuardedApply
  by_cases hm : (ppLookup env m).isSome <;> simp [hm, ppLookup, h]

/-- A name that is already defined keeps its definition across any guarded
define. -/
theorem ppLookup_guardedApply_of_some (env : PPEnv) (m n : String)
    (b prev : PPBody) (h : ppLookup env n = some prev) :
    ppLookup (ppGuardedApply env m b) n = some prev := by
  by_cases hmn : m = n
  · subst hmn
    unfold ppGuardedApply
    simp [h]
  · rw [ppLookup_guardedApply_ne env m n b hmn, h]

/-- A guarded define of an absent name defines it. -/
theorem ppLookup_guardedApply_absent (env : PPEnv) (n : String) (b : PPBody)
    (h : ppLookup env n = none) :
    ppLookup (ppGuardedApply env n b) n = some b := by
  unfold ppGuardedApply
  simp [h, ppLookup]

/-- A name that is already defined keeps its definition across any chain of
guarded defines. -/
theorem ppLookup_applyGuardedList_of_some (l : List (String × PPBody))
    (env : PPEnv) (n : String) (prev : PPBody)
    (h : ppLookup env n = some prev) :
    ppLookup (applyGuardedList env l) n = some prev := by
  induction l generalizing env with
  | nil => exact h
  | cons hd tl ih =>
    cases hd with
    | mk m b =>
      exact ih _ (ppLookup_guardedApply_of_some env m n b prev h)

/-- A name that is already defined keeps its definition across processing
`cmsis.h`. -/
theorem ppLookup_processApply_of_some (env : PPEnv) (n : String)
    (prev : PPBody) (h : ppLookup env n = some prev) :
    ppLookup (processApply env) n = some prev := by
  unfold processApply
  by_cases hc : (ppLookup env "CMSIS_H").isSome
  · simp [hc, h]
  · simp only [hc, if_false]
    apply ppLookup_applyGuardedList_of_some
    by_cases hn : ("CMSIS_H" : String) = n
    · subst hn
      rw [h] at hc
      simp at hc
    · rw [ppLookup_cons_ne env _ n _ hn]
      exact h

/-- After processing `cmsis.h`, `CMSIS_H` is defined. -/
theorem ppLookup_processApply_cmsish (env : PPEnv) :
    (ppLookup (processApply env) "CMSIS_H").isSome := by
  unfold processApply
  by_cases hc : (ppLookup env "CMSIS_H").isSome
  · rw [if_pos hc]
    exact hc
  · rw [if_neg hc]
    rw [ppLookup_applyGuardedList_of_some cmsisGuardedDefs _ _
      (PPBody.text "") (by simp [ppLookup])]
    simp

/-- When `CMSIS_H` is already defined, processing `cmsis.h` changes
nothing. -/
theorem processApply_of_defined (env : PPEnv)
    (h : (ppLookup env "CMSIS_H").isSome) : processApply env = env := by
  unfold processApply
  rw [if_pos h]

/-- Processing `cmsis.h` is idempotent: a second processing is skipped by
the include guard. -/
theorem processApply_idem (env : PPEnv) :
    processApply (processApply env) = processApply env :=
  processApply_of_defined _ (ppLookup_processApply_cmsish env)

/-- When `DWT_CTRL_CYCCNTENA_Msk` is absent, the guarded-define chain of
`cmsis.h` defines it with the body `(1UL << DWT_CTRL_CYCCNTENA_Pos)`. -/
theorem cmsis_msk_cyccnt (e : PPEnv)
    (h : ppLookup e "DWT_CTRL_CYCCNTENA_Msk" = none) :
    ppLookup (applyGuardedList e cmsisGuardedDefs) "DWT_CTRL_CYCCNTENA_Msk"
      = some (PPBody.shl1 "DWT_CTRL_CYCCNTENA_Pos") := by
  simp only [cmsisGuardedDefs, applyGuardedList]
  apply ppLookup_guardedApply_of_some
  apply ppLookup_guardedApply_of_some
  apply ppLookup_guardedApply_of_some
  apply ppLookup_guardedApply_of_some
  apply ppLookup_guardedApply_of_some
  apply ppLookup_guardedApply_of_some
  apply ppLookup_guardedApply_absent
  rw [ppLookup_guardedApply_ne _ _ _ _ (by decide)]
  rw [ppLookup_guardedApply_ne _ _ _ _ (by decide)]
  exact h

/-- When `DWT_CTRL_CYCCNTENA_Pos` is absent, the guarded-define chain of
`cmsis.h` defines it as `0U`. -/
theorem cmsis_pos_cyccnt_absent (e : PPEnv)
    (h : ppLookup e "DWT_CTRL_CYCCNTENA_Pos" = none) :
    ppLookup (applyGuardedList e cmsisGuardedDefs) "DWT_CTRL_CYCCNTENA_Pos"
      = some (PPBody.num 0) := by
  simp only [cmsisGuardedDefs, applyGuardedList]
  apply ppLookup_guardedApply_of_some
  apply ppLookup_guardedApply_of_some
  apply ppLookup_guardedApply_of_some
  apply ppLookup_guardedApply_of_some
  apply ppLookup_guardedApply_of_some
  apply ppLookup_guardedApply_absent
  rw [ppLookup_guardedApply_ne _ _ _ _ (by decide)]
  rw [ppLookup_guardedApply_ne _ _ _ _ (by decide)]
  rw [ppLookup_guardedApply_ne _ _ _ _ (by decide)]
  exact h

/-- When `CoreDebug_DEMCR_TRCENA_Msk` is absent, the guarded-define chain of
`cmsis.h` defines it with the body `(1UL << CoreDebug_DEMCR_TRCENA_Pos)`. -/
theorem cmsis_msk_trcena (e : PPEnv)
    (h : ppLookup e "CoreDebug_DEMCR_TRCENA_Msk" = none) :
    ppLookup (applyGuardedList e cmsisGuardedDefs) "CoreDebug_DEMCR_TRCENA_Msk"
      = some (PPBody.shl1 "CoreDebug_DEMCR_TRCENA_Pos") := by
  simp only [cmsisGuardedDefs, applyGuardedList]
  apply ppLookup_guardedApply_of_some
  apply ppLookup_guardedApply_of_some
  apply ppLookup_guardedApply_of_some
  apply ppLookup_guardedApply_of_some
  apply ppLookup_guardedApply_absent
  rw [ppLookup_guardedApply_ne _ _ _ _ (by decide)]
  rw [ppLookup_guardedApply_ne _ _ _ _ (by decide)]
  rw [ppLookup_guardedApply_ne _ _ _ _ (by decide)]
  rw [ppLookup_guardedApply_ne _ _ _ _ (by decide)]
  exact h

/-- When `CoreDebug_DEMCR_TRCENA_Pos` is absent, the guarded-define chain of
`cmsis.h` defines it as `24U`. -/
theorem cmsis_pos_trcena_absent (e : PPEnv)
    (h : ppLookup e "CoreDebug_DEMCR_TRCENA_Pos" = none) :
    ppLookup (applyGuardedList e cmsisGuardedDefs) "CoreDebug_DEMCR_TRCENA_Pos"
      = some (PPBody.num 24) := by
  simp only [cmsisGuardedDefs, applyGuardedList]
  apply ppLookup_guardedApply_of_some
  apply ppLookup_guardedApply_of_some
  apply ppLookup_guardedApply_of_some
  apply ppLookup_guardedApply_absent
  rw [ppLookup_guardedApply_ne _ _ _ _ (by decide)]
  rw [ppLookup_guardedApply_ne _ _ _ _ (by decide)]
  rw [ppLookup_guardedApply_ne _ _ _ _ (by decide)]
  rw [ppLookup_guardedApply_ne _ _ _ _ (by decide)]
  rw [ppLookup_guardedApply_ne _ _ _ _ (by decide)]
  exact h

/-- When the include guard is open, processing `cmsis.h` defines `CMSIS_H`
and then runs the guarded chain. -/
theorem processApply_open (env : PPEnv)
    (hC : ppLookup env "CMSIS_H" = none) :
    processApply env
      = applyGuardedList (("CMSIS_H", PPBody.text "") :: env)
          cmsisGuardedDefs := by
  unfold processApply
  rw [if_neg]
  simp [hC]

/-- C1: for every timer record `t`, `ns_timer_init(t)` followed by
`ns_timer_start(t)` leaves `t.start_time == 0` and `t.duration == 0`
(the duration unchanged from the value `0` set by init). -/
theorem c1_timer_init_then_start (t : ns_timer_t) :
    (ns_timer_start (ns_timer_init t)).start_time = 0 ∧
    (ns_timer_start (ns_timer_init t)).duration = 0 :=
  ⟨rfl, rfl⟩

/-- C2: `ns_timer_start` writes the `start_time` field (resetting it to
`0`), leaves the `duration` field unchanged, and modifies no other state
(the globals component of the full state is untouched). -/
theorem c2_timer_start_frame {γ : Type} (g : γ) (t : ns_timer_t) :
    (ns_timer_start t).start_time = 0 ∧
    (ns_timer_start t).duration = t.duration ∧
    ns_timer_start_st (g, t) = (g, ns_timer_start t) :=
  ⟨rfl, rfl, rfl⟩

/-- C3: the ten no-op stubs (`ns_core_init`, `ns_core_deinit`,
`ns_power_init`, `ns_power_deinit`, `am_hal_interrupt_master_enable`,
`am_hal_interrupt_master_disable`, `am_hal_sysctrl_sleep`,
`am_hal_sysctrl_deepsleep`, `am_bsp_low_power_init`,
`am_bsp_low_power_exit`) are the identity on all program state: any
sequence of them, in any order and of any length, leaves any state
unchanged. -/
theorem c3_noop_stubs_identity {σ : Type} (calls : List NoOpStub) (s : σ) :
    runNoOpStubs calls s = s := by
  induction calls generalizing s with
  | nil => rfl
  | cons c rest ih => cases c <;> exact ih s

/-- C4 counterexample: `ns_malloc` is a harness stub, and calling it twice
in succession does not yield the same (allocator) state as calling it once:
on the concrete host allocator `listAlloc`, starting from the empty heap,
two `ns_malloc` calls of size 4 leave a different state than one. -/
theorem c4_counterexample_malloc_twice :
    ¬ (ns_malloc listAlloc (ns_malloc listAlloc (0, []) 4).2 4).2
      = (ns_malloc listAlloc (0, []) 4).2 := by
  decide

/-- C4 amended: every harness stub other than the allocator pair is
idempotent — each no-op stub twice equals it once on any state, and
`ns_timer_init` and `ns_timer_start` applied twice to the same timer
record equal a single application — and the timer calls touch no global
(non-caller-owned) state. -/
theorem c4_stub_idempotence {σ γ : Type} (c : NoOpStub) (s : σ) (g : γ)
    (t : ns_timer_t) :
    runNoOpStub c (runNoOpStub c s) = runNoOpStub c s ∧
    ns_timer_init (ns_timer_init t) = ns_timer_init t ∧
    ns_timer_start (ns_timer_start t) = ns_timer_start t ∧
    ns_timer_init_st (ns_timer_init_st (g, t)) = ns_timer_init_st (g, t) ∧
    ns_timer_start_st (ns_timer_start_st (g, t)) = ns_timer_start_st (g, t) ∧
    (ns_timer_init_st (g, t)).1 = g ∧
    (ns_timer_start_st (g, t)).1 = g := by
  refine ⟨?_, rfl, rfl, rfl, rfl, rfl, rfl⟩
  cases c <;> rfl

/-- C5: `ns_malloc` returns exactly the result of the host allocator
`malloc` (including the null return on allocation failure — the result is
forwarded unchanged), `ns_free` forwards to the host `free`, and freeing a
pointer previously returned by `ns_malloc` does not fault (by the host
allocator's own contract, which the stub neither strengthens nor
weakens). -/
theorem c5_alloc_delegation {σ : Type} (A : HostAllocator σ) (s : σ)
    (size ptr : Nat) :
    ns_malloc A s size = A.malloc s size ∧
    ns_free A s ptr = A.free s ptr ∧
    (∀ p sNew, ns_malloc A s size = (some p, sNew) →
      (ns_free A sNew p).isSome) := by
  refine ⟨rfl, rfl, ?_⟩
  intro p sNew h
  exact A.free_after_malloc s size p sNew h

/-- C5 witness: on the concrete allocator `listAlloc`, `ns_malloc` of size
4 from the empty heap returns pointer 0, and `ns_free` of that pointer
succeeds. -/
theorem c5_alloc_delegation_witness :
    ns_malloc listAlloc (0, []) 4 = (some 0, (1, [(0, 4)])) ∧
    (ns_free listAlloc (1, [(0, 4)]) 0).isSome :=
  ⟨rfl, (c5_alloc_delegation listAlloc (0, []) 4 0).2.2 0 (1, [(0, 4)]) rfl⟩

/-- C8 counterexample: `ns_free` is a harness stub other than `ns_malloc`,
yet it does not always succeed: on the concrete host allocator `listAlloc`,
freeing the never-allocated pointer 5 in the empty heap faults (the fault
inherited from the host `free`). -/
theorem c8_counterexample_free_faults :
    ¬ (ns_free listAlloc (0, []) 5).isSome := by
  decide

/-- C8 amended: no stub introduces an error path of its own — each no-op
stub always returns normally with the state unchanged, the timer calls
always return normally with the record values written by their bodies, and
`ns_malloc` / `ns_free` delegate entirely to the host allocator (the null
return of `malloc` and the behavior of `free` are forwarded unchanged). -/
theorem c8_no_own_failure {σ γ : Type} (A : HostAllocator σ) (c : NoOpStub)
    (s g : γ) (t : ns_timer_t) (hs : σ) (size ptr : Nat) :
    runNoOpStub c s = s ∧
    ns_timer_init_st (g, t) = (g, { start_time := 0, duration := 0 }) ∧
    ns_timer_start_st (g, t) = (g, { t with start_time := 0 }) ∧
    ns_malloc A hs size = A.malloc hs size ∧
    ns_free A hs ptr = A.free hs ptr := by
  refine ⟨?_, rfl, rfl, rfl, rfl⟩
  cases c <;> rfl

/-- C9: `ns_timer_start` needs no prior `ns_timer_init` — on a record with
arbitrary field contents a single call establishes `start_time == 0`,
leaves `duration` as it was, and the resulting `start_time` is independent
of the record's prior contents. -/
theorem c9_start_without_init (t tAlt : ns_timer_t) :
    (ns_timer_start t).start_time = 0 ∧
    (ns_timer_start t).duration = t.duration ∧
    (ns_timer_start t).start_time = (ns_timer_start tAlt).start_time :=
  ⟨rfl, rfl, rfl⟩

/-- C10: every harness stub except `ns_malloc` is deterministic — from
equal states and equal arguments, each no-op stub, both timer calls and
`ns_free` (with the same host allocator) produce equal results. -/
theorem c10_stubs_deterministic {σ γ : Type} (A : HostAllocator σ)
    (c : NoOpStub) (s sB : γ) (t tB : ns_timer_t) (hs hsB : σ) (p pB : Nat)
    (hg : s = sB) (ht : t = tB) (hh : hs = hsB) (hp : p = pB) :
    runNoOpStub c s = runNoOpStub c sB ∧
    ns_timer_init t = ns_timer_init tB ∧
    ns_timer_start t = ns_timer_start tB ∧
    ns_free A hs p = ns_free A hsB pB := by
  subst hg
  subst ht
  subst hh
  subst hp
  exact ⟨rfl, rfl, rfl, rfl⟩

/-- C10 witness: determinism instantiated at concrete equal inputs. -/
theorem c10_stubs_deterministic_witness :
    runNoOpStub NoOpStub.core_init (0 : Nat) = runNoOpStub NoOpStub.core_init 0 ∧
    ns_timer_init ⟨1, 2⟩ = ns_timer_init ⟨1, 2⟩ ∧
    ns_timer_start ⟨1, 2⟩ = ns_timer_start ⟨1, 2⟩ ∧
    ns_free listAlloc (0, []) 0 = ns_free listAlloc (0, []) 0 :=
  c10_stubs_deterministic listAlloc NoOpStub.core_init 0 0 ⟨1, 2⟩ ⟨1, 2⟩
    (0, []) (0, []) 0 0 rfl rfl rfl rfl

/-- C6: processing `cmsis.h` is define-if-absent for every guarded symbol —
it never produces a redefinition error, every guarded symbol already
present keeps its prior definition unchanged, and processing the header
twice yields the same environment as processing it once (with no
redefinition error in either case). -/
theorem c6_define_if_absent (env : PPEnv) :
    processCmsisH env = some (processApply env) ∧
    processCmsisH (processApply env) = some (processApply env) ∧
    (∀ n, n ∈ cmsisGuardedNames → ∀ prev, ppLookup env n = some prev →
      ppLookup (processApply env) n = some prev) := by
  refine ⟨processCmsisH_eq env, ?_, ?_⟩
  · rw [processCmsisH_eq, processApply_idem]
  · intro n _ prev h
    exact ppLookup_processApply_of_some env n prev h

/-- C6 witness: with `DWT` pre-defined by a mock prior header, processing
`cmsis.h` succeeds and keeps the prior definition of `DWT`. -/
theorem c6_define_if_absent_witness :
    processCmsisH [("DWT", PPBody.text "priorDWT")]
      = some (processApply [("DWT", PPBody.text "priorDWT")]) ∧
    ppLookup (processApply [("DWT", PPBody.text "priorDWT")]) "DWT"
      = some (PPBody.text "priorDWT") :=
  ⟨(c6_define_if_absent [("DWT", PPBody.text "priorDWT")]).1,
   (c6_define_if_absent [("DWT", PPBody.text "priorDWT")]).2.2 "DWT"
     (by decide) (PPBody.text "priorDWT") rfl⟩

/-- C7: whenever the shim supplies a mask (the mask symbol was absent
before processing `cmsis.h`), the mask evaluates to `1` shifted left by the
corresponding position — whether the position macro was supplied by a prior
header (any numeric value `p`) or by the shim itself (positions `0` and
`24`, giving masks `1` and `0x1000000`). -/
theorem c7_mask_is_shifted_one (env : PPEnv)
    (hC : ppLookup env "CMSIS_H" = none)
    (hM1 : ppLookup env "DWT_CTRL_CYCCNTENA_Msk" = none)
    (hM2 : ppLookup env "CoreDebug_DEMCR_TRCENA_Msk" = none) :
    (∀ p, ppLookup env "DWT_CTRL_CYCCNTENA_Pos" = some (PPBody.num p) →
      evalDef (processApply env) "DWT_CTRL_CYCCNTENA_Msk" = some (1 <<< p)) ∧
    (ppLookup env "DWT_CTRL_CYCCNTENA_Pos" = none →
      evalDef (processApply env) "DWT_CTRL_CYCCNTENA_Msk" = some 1) ∧
    (∀ p, ppLookup env "CoreDebug_DEMCR_TRCENA_Pos" = some (PPBody.num p) →
      evalDef (processApply env) "CoreDebug_DEMCR_TRCENA_Msk" = some (1 <<< p)) ∧
    (ppLookup env "CoreDebug_DEMCR_TRCENA_Pos" = none →
      evalDef (processApply env) "CoreDebug_DEMCR_TRCENA_Msk"
        = some 16777216) := by
  have hPA := processApply_open env hC
  have hMsk1 : ppLookup (processApply env) "DWT_CTRL_CYCCNTENA_Msk"
      = some (PPBody.shl1 "DWT_CTRL_CYCCNTENA_Pos") := by
    rw [hPA]
    apply cmsis_msk_cyccnt
    rw [ppLookup_cons_ne _ _ _ _ (by decide)]
    exact hM1
  have hMsk2 : ppLookup (processApply env) "CoreDebug_DEMCR_TRCENA_Msk"
      = some (PPBody.shl1 "CoreDebug_DEMCR_TRCENA_Pos") := by
    rw [hPA]
    apply cmsis_msk_trcena
    rw [ppLookup_cons_ne _ _ _ _ (by decide)]
    exact hM2
  refine ⟨?_, ?_, ?_, ?_⟩
  · intro p hp
    have hPos : ppLookup (processApply env) "DWT_CTRL_CYCCNTENA_Pos"
        = some (PPBody.num p) :=
      ppLookup_processApply_of_some env _ _ hp
    simp [evalDef, evalPPBody, hMsk1, hPos]
  · intro hp
    have hPos : ppLookup (processApply env) "DWT_CTRL_CYCCNTENA_Pos"
        = some (PPBody.num 0) := by
      rw [hPA]
      apply cmsis_pos_cyccnt_absent
      rw [ppLookup_cons_ne _ _ _ _ (by decide)]
      exact hp
    simp [evalDef, evalPPBody, hMsk1, hPos]
  · intro p hp
    have hPos : ppLookup (processApply env) "CoreDebug_DEMCR_TRCENA_Pos"
        = some (PPBody.num p) :=
      ppLookup_processApply_of_some env _ _ hp
    simp [evalDef, evalPPBody, hMsk2, hPos]
  · intro hp
    have hPos : ppLookup (processApply env) "CoreDebug_DEMCR_TRCENA_Pos"
        = some (PPBody.num 24) := by
      rw [hPA]
      apply cmsis_pos_trcena_absent
      rw [ppLookup_cons_ne _ _ _ _ (by decide)]
      exact hp
    simp [evalDef, evalPPBody, hMsk2, hPos]

/-- C7 witness: from the empty environment, the shim supplies both
positions and both masks, and the masks evaluate to `1` and `0x1000000`. -/
theorem c7_mask_is_shifted_one_witness :
    evalDef (processApply ([] : PPEnv)) "DWT_CTRL_CYCCNTENA_Msk" = some 1 ∧
    evalDef (processApply ([] : PPEnv)) "CoreDebug_DEMCR_TRCENA_Msk"
      = some 16777216 :=
  ⟨(c7_mask_is_shifted_one [] rfl rfl rfl).2.1 rfl,
   (c7_mask_is_shifted_one [] rfl rfl rfl).2.2.2 rfl⟩
